import Mathlib

/-!
Verification of the gated gallery vote workflow.

The repository contains several near-duplicate page components sharing one
design: a session manager (Supabase auth) gating a vote workflow against a
remote `caption_votes` table. We embed each variant that the claims cite:

- `handleVote_cdn` / `fetchData_app` / `fetchUserVotes_app` /
  `onAuthStateChange_app`: the `src/unnamed/part_000` App component (undo via
  delete, upsert otherwise, errors surfaced via setError). The App component
  in the second document of `src/app/page.tsx` has the identical auth
  listener and fetch logic; its `handleVote` differs only in logging failures
  instead of surfacing them, embedded as `handleVote_page`.
- `handleVote_v2`: the `src/unnamed/part_001` Home component (always a plain
  insert, errors logged to the console, per-item busy marker `votingId`).
- `handleVote_login` / `fetchData_login`: the Home component in the third
  document of `src/components/LoginButton.tsx` (always upsert, no undo,
  errors surfaced, busy marker).
- `callbackGET`: the route handler in `src/app/auth/callback/route.ts`.

The remote store (Supabase/Postgres) is an external collaborator; its
row-level semantics are modelled from the boundary the spec gives in section
6: `upsert(table, row, conflictKeys)`, `deleteWhere`, insert, with a
uniqueness constraint on (identity, content item). A vote table is a list of
rows; remote failures are modelled by an `Option String` result per call
(`none` means success, `some msg` a failure with that message), since the
client code only observes the error message.
-/

namespace Gallery

/-- Vote direction as used by the part_001 and LoginButton variants
(string literals up and down in the source). -/
inductive VoteDir where
  | up
  | down
deriving DecidableEq, Repr

/-- The LoginButton variant maps the clicked direction to a signed value:
newValue = direction === up ? 1 : -1. -/
def dirValue (d : VoteDir) : Int :=
  match d with
  | VoteDir.up => 1
  | VoteDir.down => -1

/-- A row of the remote caption_votes table as used by the part_000,
page.tsx and LoginButton variants (columns profile_id, caption_id,
vote_value; the modified_datetime_utc column is never read back by the
client and is not observable in any claim, so it is omitted). -/
structure VoteRow where
  profile_id : String
  caption_id : String
  vote_value : Int
deriving DecidableEq, Repr

/-- A row of the vote table as written by the part_001 variant
(columns image_id, user_id, vote_type). -/
structure ImgVoteRow where
  image_id : String
  user_id : String
  vote_type : VoteDir
deriving DecidableEq, Repr

/-- The rows of a vote table belonging to one identity:
select ... eq(profile_id, userId). -/
def usersRows (t : List VoteRow) (uid : String) : List VoteRow :=
  t.filter fun r => r.profile_id == uid

/-- The fold used by fetchUserVotes in part_000 (and the forEach in the
LoginButton fetchData): reduce((acc, vote) => acc[vote.caption_id] =
vote.vote_value) over the fetched rows, starting from acc. A JS record used
as a dictionary is embedded as a function to Option. -/
def votesFold (rows : List VoteRow) (acc : String → Option Int) : String → Option Int :=
  rows.foldl (fun m r => fun c => if c = r.caption_id then some r.vote_value else m c) acc

/-- fetchUserVotes (part_000, lines 61-78): select caption_id, vote_value
where profile_id = userId, folded into a map from caption id to value. -/
def fetchUserVotesMap (t : List VoteRow) (uid : String) : String → Option Int :=
  votesFold (usersRows t uid) (fun _ => none)

/-- Value of the last row for a given caption id in a row list; the JS fold
assigns later rows over earlier ones, so the last one wins. -/
def lastVoteFor : List VoteRow → String → Option Int
  | [], _ => none
  | r :: rs, c =>
    match lastVoteFor rs c with
    | some v => some v
    | none => if c = r.caption_id then some r.vote_value else none

/-- Number of rows in the table for one (identity, content item) pair. -/
def cntVote (t : List VoteRow) (uid c : String) : Nat :=
  (t.filter fun r => r.profile_id == uid && r.caption_id == c).length

/-- The cardinality invariant of section 3 of the design: at most one vote
row per (identity, content item) pair. -/
def VoteTableInv (t : List VoteRow) : Prop :=
  ∀ uid c, cntVote t uid c ≤ 1

/-- Modelled from the spec: the data-store boundary operation
upsert(table, row, conflictKeys) with conflict target
(profile_id, caption_id). The uniqueness constraint of the remote schema
(spec section 6) guarantees at most one conflicting row, whose vote_value is
updated in place; with no conflicting row the new row is appended. -/
def upsertVote : List VoteRow → VoteRow → List VoteRow
  | [], row => [row]
  | r :: rs, row =>
    if r.profile_id = row.profile_id ∧ r.caption_id = row.caption_id then
      { r with vote_value := row.vote_value } :: rs
    else
      r :: upsertVote rs row

/-- Modelled from the spec: the data-store boundary operation
deleteWhere(table, predicate) as issued by the undo branch:
delete().eq(caption_id, captionId).eq(profile_id, uid). -/
def deleteVote (t : List VoteRow) (captionId uid : String) : List VoteRow :=
  t.filter fun r => !(r.caption_id == captionId && r.profile_id == uid)

/-- Number of rows in the part_001 table for one (identity, content item)
pair. -/
def cntImg (t : List ImgVoteRow) (uid i : String) : Nat :=
  (t.filter fun r => r.user_id == uid && r.image_id == i).length

/-- The cardinality invariant for the part_001 table shape. -/
def ImgTableInv (t : List ImgVoteRow) : Prop :=
  ∀ uid i, cntImg t uid i ≤ 1

/-- Modelled from the spec: a plain insert into the vote table, which the
spec (section 6) gives a uniqueness constraint on (identity, content item);
inserting a duplicate pair is rejected by the store and yields no new
table. -/
def insertImgVote (t : List ImgVoteRow) (row : ImgVoteRow) : Option (List ImgVoteRow) :=
  if t.any fun r => r.user_id == row.user_id && r.image_id == row.image_id then
    none
  else
    some (t ++ [row])

/-- One remote write issued by a vote handler. -/
inductive RemoteWrite where
  | upsert (profile_id caption_id : String) (vote_value : Int)
  | delete (caption_id profile_id : String)
  | insert (user_id image_id : String) (vote_type : VoteDir)
deriving DecidableEq, Repr

/-- A content item of the captions table as declared by the Caption
interface in part_000. -/
structure Caption where
  id : String
  content : String
  is_featured : Bool
  created_datetime_utc : String
deriving DecidableEq, Repr

/-- A content item of the images table as read by the part_001 variant
(fields id, url, title, description accessed in the markup). -/
structure ImageItem where
  id : String
  url : String
  title : String
  description : String
deriving DecidableEq, Repr

/-- A joined caption row as read by the LoginButton variant (id, content,
image_id plus the joined image fields accessed in the markup). -/
structure CaptionItem where
  id : String
  content : String
  image_id : String
  image_url : String
  image_description : String
deriving DecidableEq, Repr

/-- Local view state of the part_000 App component (and of the App
component in the second document of page.tsx, whose state fields
coincide): user, captions, userVotes, loading, error. -/
structure AppState where
  user : Option String
  captions : List Caption
  userVotes : String → Option Int
  loading : Bool
  error : Option String

/-- Local view state of the part_001 Home component: user, images,
userVotes (string directions), loading, error, votingId. -/
structure V2State where
  user : Option String
  images : List ImageItem
  userVotes : String → Option VoteDir
  loading : Bool
  error : Option String
  votingId : Option String

/-- Local view state of the LoginButton Home component: user, displayData,
userVotes (signed values), loading, error, votingId. -/
structure LoginState where
  user : Option String
  displayData : List CaptionItem
  userVotes : String → Option Int
  loading : Bool
  error : Option String
  votingId : Option String

/-- handleVote of part_000 (lines 146-195). Guard: return when user is
null. When the existing local vote equals the clicked value, delete the
remote row and, on success, drop the local key; otherwise upsert with
conflict target (profile_id, caption_id) and, on success, set the local
key. A failing remote call sets the error message and leaves everything
else untouched. Returns the new state, the new remote table and the list
of remote writes issued. -/
def handleVote_cdn (s : AppState) (t : List VoteRow) (captionId : String) (value : Int)
    (res : Option String) : AppState × List VoteRow × List RemoteWrite :=
  match s.user with
  | none => (s, t, [])
  | some uid =>
    if s.userVotes captionId = some value then
      match res with
      | some msg => ({ s with error := some msg }, t, [RemoteWrite.delete captionId uid])
      | none =>
        ({ s with userVotes := fun c => if c = captionId then none else s.userVotes c },
         deleteVote t captionId uid, [RemoteWrite.delete captionId uid])
    else
      match res with
      | some msg => ({ s with error := some msg }, t, [RemoteWrite.upsert uid captionId value])
      | none =>
        ({ s with userVotes := fun c => if c = captionId then some value else s.userVotes c },
         upsertVote t ⟨uid, captionId, value⟩, [RemoteWrite.upsert uid captionId value])

/-- handleVote of the App component in the second document of page.tsx
(lines 318-373): same branching as part_000, but a failing remote call is
only logged to the console (console.error), so the error field is left
unchanged. -/
def handleVote_page (s : AppState) (t : List VoteRow) (captionId : String) (value : Int)
    (res : Option String) : AppState × List VoteRow × List RemoteWrite :=
  match s.user with
  | none => (s, t, [])
  | some uid =>
    if s.userVotes captionId = some value then
      match res with
      | some _ => (s, t, [RemoteWrite.delete captionId uid])
      | none =>
        ({ s with userVotes := fun c => if c = captionId then none else s.userVotes c },
         deleteVote t captionId uid, [RemoteWrite.delete captionId uid])
    else
      match res with
      | some _ => (s, t, [RemoteWrite.upsert uid captionId value])
      | none =>
        ({ s with userVotes := fun c => if c = captionId then some value else s.userVotes c },
         upsertVote t ⟨uid, captionId, value⟩, [RemoteWrite.upsert uid captionId value])

/-- handleVote of part_001 (lines 96-128). Guard: return when user is
null. Sets votingId to the item, issues one plain insert, on success sets
the local key; failures (exogenous or the uniqueness constraint of the
store) are logged only; the finally block clears votingId. -/
def handleVote_v2 (s : V2State) (t : List ImgVoteRow) (imageId : String) (voteType : VoteDir)
    (res : Option String) : V2State × List ImgVoteRow × List RemoteWrite :=
  match s.user with
  | none => (s, t, [])
  | some uid =>
    match res with
    | some _ => ({ s with votingId := none }, t, [RemoteWrite.insert uid imageId voteType])
    | none =>
      match insertImgVote t ⟨imageId, uid, voteType⟩ with
      | none => ({ s with votingId := none }, t, [RemoteWrite.insert uid imageId voteType])
      | some t2 =>
        ({ s with
            votingId := none,
            userVotes := fun i => if i = imageId then some voteType else s.userVotes i },
         t2, [RemoteWrite.insert uid imageId voteType])

/-- handleVote of the LoginButton Home component (lines 186-218). Guard:
return when user is null. Always issues one upsert with conflict target
(profile_id, caption_id) of the signed value of the clicked direction; on
success sets the local key and clears the error, on failure sets the error
message; the finally block clears votingId. -/
def handleVote_login (s : LoginState) (t : List VoteRow) (captionId : String) (direction : VoteDir)
    (res : Option String) : LoginState × List VoteRow × List RemoteWrite :=
  match s.user with
  | none => (s, t, [])
  | some uid =>
    match res with
    | some msg =>
      ({ s with error := some msg, votingId := none }, t,
       [RemoteWrite.upsert uid captionId (dirValue direction)])
    | none =>
      ({ s with
          error := none,
          votingId := none,
          userVotes := fun c => if c = captionId then some (dirValue direction) else s.userVotes c },
       upsertVote t ⟨uid, captionId, dirValue direction⟩,
       [RemoteWrite.upsert uid captionId (dirValue direction)])

/-- fetchData of part_000 (lines 80-96) and of the page.tsx App: sets
loading and clears the error, then either surfaces the fetch error or
stores the caption list; loading ends either way. -/
def fetchData_app (s : AppState) (capRes : Except String (List Caption)) : AppState :=
  match capRes with
  | Except.error msg => { s with loading := false, error := some msg }
  | Except.ok d => { s with captions := d, loading := false, error := none }

/-- fetchUserVotes of part_000 (lines 61-78) as a state transition: a fetch
error is logged only, leaving the state untouched; on success the fetched
rows for the identity are folded into the userVotes mapping. -/
def fetchUserVotes_app (s : AppState) (uid : String) (t : List VoteRow)
    (voteErr : Option String) : AppState :=
  match voteErr with
  | some _ => s
  | none => { s with userVotes := fetchUserVotesMap t uid }

/-- The onAuthStateChange listener of part_000 (lines 114-130) and of the
page.tsx App (lines 283-300), which are identical: on a session with a
user, store the user and run fetchData then fetchUserVotes; on a null
session, clear the user, the caption list and the vote mapping and end
loading. -/
def onAuthStateChange_app (s : AppState) (session : Option String)
    (capRes : Except String (List Caption)) (t : List VoteRow)
    (voteErr : Option String) : AppState :=
  match session with
  | none =>
    { s with user := none, captions := [], userVotes := fun _ => none, loading := false }
  | some uid =>
    fetchUserVotes_app (fetchData_app { s with user := some uid } capRes) uid t voteErr

/-- fetchData of the LoginButton Home component (lines 103-143): fetch the
joined captions, then the vote rows of the identity; any error is caught
and surfaced via setError (leaving displayData and userVotes untouched);
on success both are stored; the finally block ends loading. -/
def fetchData_login (s : LoginState) (uid : String)
    (capRes : Except String (List CaptionItem)) (t : List VoteRow)
    (voteErr : Option String) : LoginState :=
  match capRes with
  | Except.error msg => { s with loading := false, error := some msg }
  | Except.ok caps =>
    match voteErr with
    | some msg => { s with loading := false, error := some msg }
    | none =>
      { s with
          loading := false,
          error := none,
          displayData := caps,
          userVotes := fetchUserVotesMap t uid }

/-- Observable outcome of the OAuth callback handler: the redirect target
and the code passed to exchangeCodeForSession, when any. -/
structure CallbackResult where
  redirectTo : String
  exchanged : Option String
deriving DecidableEq, Repr

/-- GET of src/app/auth/callback/route.ts (lines 10-42): reads the code
query parameter; when present, exchanges it for a session (the result of
the exchange is discarded); then redirects to the request origin. The
exchange outcome parameter is unused because the handler never inspects
it. -/
def callbackGET (origin : String) (code : Option String) (_exchangeOk : Bool) : CallbackResult :=
  { redirectTo := origin, exchanged := code }

/-- A sequence of handleVote calls of the part_000 App, each given time to
settle before the next: caption id, clicked value and remote result per
call, folded over the state and the remote table. -/
def runVotes (s : AppState) (t : List VoteRow) :
    List (String × Int × Option String) → AppState × List VoteRow
  | [] => (s, t)
  | (c, v, res) :: rest =>
    let r := handleVote_cdn s t c v res
    runVotes r.1 r.2.1 rest

theorem usersRows_nil (uid : String) : usersRows [] uid = [] := rfl

theorem usersRows_cons (r : VoteRow) (rs : List VoteRow) (uid : String) :
    usersRows (r :: rs) uid =
      if r.profile_id = uid then r :: usersRows rs uid else usersRows rs uid := by
  simp only [usersRows, List.filter_cons, beq_iff_eq]

theorem votesFold_lookup (rows : List VoteRow) :
    ∀ (acc : String → Option Int) (c : String),
      votesFold rows acc c =
        match lastVoteFor rows c with
        | some v => some v
        | none => acc c := by
  induction rows with
  | nil => intro acc c; rfl
  | cons r rs ih =>
    intro acc c
    have h1 : votesFold (r :: rs) acc c
        = votesFold rs (fun x => if x = r.caption_id then some r.vote_value else acc x) c := rfl
    rw [h1, ih]
    by_cases hc : c = r.caption_id
    · subst hc
      cases h : lastVoteFor rs r.caption_id <;> simp [lastVoteFor, h]
    · cases h : lastVoteFor rs c <;> simp [lastVoteFor, h, hc]

theorem fetchUserVotesMap_lookup (t : List VoteRow) (uid c : String) :
    fetchUserVotesMap t uid c =
      match lastVoteFor (usersRows t uid) c with
      | some v => some v
      | none => none := by
  simp only [fetchUserVotesMap, votesFold_lookup]

theorem lastVoteFor_cons_ne (r : VoteRow) (l : List VoteRow) (x : String)
    (h : x ≠ r.caption_id) : lastVoteFor (r :: l) x = lastVoteFor l x := by
  cases hh : lastVoteFor l x <;> simp [lastVoteFor, hh, h]

theorem lastVoteFor_cons_congr (r : VoteRow) (l₁ l₂ : List VoteRow) (x : String)
    (h : lastVoteFor l₁ x = lastVoteFor l₂ x) :
    lastVoteFor (r :: l₁) x = lastVoteFor (r :: l₂) x := by
  simp only [lastVoteFor, h]

theorem deleteVote_cons (r : VoteRow) (rs : List VoteRow) (c uid : String) :
    deleteVote (r :: rs) c uid =
      if r.caption_id = c ∧ r.profile_id = uid then deleteVote rs c uid
      else r :: deleteVote rs c uid := by
  by_cases h1 : r.caption_id = c <;> by_cases h2 : r.profile_id = uid <;>
    simp [deleteVote, List.filter_cons, h1, h2]

theorem cntVote_cons (r : VoteRow) (rs : List VoteRow) (uid c : String) :
    cntVote (r :: rs) uid c =
      if r.profile_id = uid ∧ r.caption_id = c then cntVote rs uid c + 1
      else cntVote rs uid c := by
  by_cases h1 : r.profile_id = uid <;> by_cases h2 : r.caption_id = c <;>
    simp [cntVote, List.filter_cons, h1, h2]

theorem lastVoteFor_delete (t : List VoteRow) (uid c x : String) :
    lastVoteFor (usersRows (deleteVote t c uid) uid) x =
      if x = c then none else lastVoteFor (usersRows t uid) x := by
  induction t with
  | nil => simp [deleteVote, usersRows, lastVoteFor]
  | cons r rs ih =>
    rw [deleteVote_cons]
    by_cases hd : r.caption_id = c ∧ r.profile_id = uid
    · rw [if_pos hd, ih, usersRows_cons, if_pos hd.2]
      by_cases hx : x = c
      · simp [hx]
      · rw [if_neg hx, if_neg hx,
          lastVoteFor_cons_ne r _ x (by rw [hd.1]; exact hx)]
    · rw [if_neg hd]
      by_cases hp : r.profile_id = uid
      · have hnc : r.caption_id ≠ c := fun hh => hd ⟨hh, hp⟩
        rw [usersRows_cons, if_pos hp, usersRows_cons, if_pos hp]
        by_cases hx : x = c
        · rw [if_pos hx,
            lastVoteFor_cons_ne r _ x (by rw [hx]; exact fun hh => hnc hh.symm),
            ih, if_pos hx]
        · rw [if_neg hx]
          exact lastVoteFor_cons_congr r _ _ x (by rw [ih, if_neg hx])
      · rw [usersRows_cons, if_neg hp, usersRows_cons, if_neg hp, ih]

theorem lastVoteFor_of_cnt_zero (t : List VoteRow) (uid c : String)
    (h : cntVote t uid c = 0) : lastVoteFor (usersRows t uid) c = none := by
  induction t with
  | nil => rfl
  | cons r rs ih =>
    rw [cntVote_cons] at h
    by_cases hm : r.profile_id = uid ∧ r.caption_id = c
    · rw [if_pos hm] at h
      omega
    · rw [if_neg hm] at h
      by_cases hp : r.profile_id = uid
      · have hnc : r.caption_id ≠ c := fun hh => hm ⟨hp, hh⟩
        rw [usersRows_cons, if_pos hp,
          lastVoteFor_cons_ne r _ c (fun hh => hnc hh.symm)]
        exact ih h
      · rw [usersRows_cons, if_neg hp]
        exact ih h

theorem lastVoteFor_upsert (t : List VoteRow) (uid c : String) (v : Int) (x : String)
    (hcnt : cntVote t uid c ≤ 1) :
    lastVoteFor (usersRows (upsertVote t ⟨uid, c, v⟩) uid) x =
      if x = c then some v else lastVoteFor (usersRows t uid) x := by
  induction t with
  | nil =>
    by_cases hx : x = c <;> simp [upsertVote, usersRows, lastVoteFor, hx]
  | cons r rs ih =>
    by_cases hm : r.profile_id = uid ∧ r.caption_id = c
    · have hu : upsertVote (r :: rs) ⟨uid, c, v⟩ = { r with vote_value := v } :: rs := by
        simp [upsertVote, hm.1, hm.2]
      have hz : cntVote rs uid c = 0 := by
        rw [cntVote_cons, if_pos hm] at hcnt
        omega
      rw [hu, usersRows_cons, if_pos hm.1]
      by_cases hx : x = c
      · rw [if_pos hx]
        have hnone := lastVoteFor_of_cnt_zero rs uid c hz
        subst hx
        cases hh : lastVoteFor (usersRows rs uid) x with
        | some w => rw [hh] at hnone; exact absurd hnone (by simp)
        | none => simp [lastVoteFor, hh, hm.2]
      · rw [if_neg hx, usersRows_cons, if_pos hm.1]
        have hne : x ≠ r.caption_id := by rw [hm.2]; exact hx
        rw [lastVoteFor_cons_ne { r with vote_value := v } _ x hne,
          lastVoteFor_cons_ne r _ x hne]
    · have hu : upsertVote (r :: rs) ⟨uid, c, v⟩ = r :: upsertVote rs ⟨uid, c, v⟩ := by
        have : ¬(r.profile_id = uid ∧ r.caption_id = c) := hm
        simp only [upsertVote, if_neg this]
      have hcnt2 : cntVote rs uid c ≤ 1 := by
        rw [cntVote_cons] at hcnt
        by_cases hq : r.profile_id = uid ∧ r.caption_id = c
        · exact absurd hq hm
        · rw [if_neg hq] at hcnt; exact hcnt
      rw [hu]
      by_cases hp : r.profile_id = uid
      · have hnc : r.caption_id ≠ c := fun hh => hm ⟨hp, hh⟩
        rw [usersRows_cons, if_pos hp, usersRows_cons, if_pos hp]
        by_cases hx : x = c
        · rw [if_pos hx,
            lastVoteFor_cons_ne r _ x (by rw [hx]; exact fun hh => hnc hh.symm),
            ih hcnt2, if_pos hx]
        · rw [if_neg hx]
          exact lastVoteFor_cons_congr r _ _ x (by rw [ih hcnt2, if_neg hx])
      · rw [usersRows_cons, if_neg hp, usersRows_cons, if_neg hp, ih hcnt2]

theorem fetchUserVotesMap_delete (t : List VoteRow) (uid c x : String) :
    fetchUserVotesMap (deleteVote t c uid) uid x =
      if x = c then none else fetchUserVotesMap t uid x := by
  rw [fetchUserVotesMap_lookup, fetchUserVotesMap_lookup, lastVoteFor_delete]
  by_cases hx : x = c
  · simp [hx]
  · rw [if_neg hx, if_neg hx]

theorem fetchUserVotesMap_upsert (t : List VoteRow) (uid c : String) (v : Int) (x : String)
    (hcnt : cntVote t uid c ≤ 1) :
    fetchUserVotesMap (upsertVote t ⟨uid, c, v⟩) uid x =
      if x = c then some v else fetchUserVotesMap t uid x := by
  rw [fetchUserVotesMap_lookup, fetchUserVotesMap_lookup,
    lastVoteFor_upsert t uid c v x hcnt]
  by_cases hx : x = c
  · simp [hx]
  · rw [if_neg hx, if_neg hx]

theorem cntVote_delete_le (t : List VoteRow) (c0 uid0 u c : String) :
    cntVote (deleteVote t c0 uid0) u c ≤ cntVote t u c := by
  induction t with
  | nil => simp [deleteVote, cntVote]
  | cons r rs ih =>
    rw [deleteVote_cons, cntVote_cons]
    by_cases hd : r.caption_id = c0 ∧ r.profile_id = uid0
    · rw [if_pos hd]
      split <;> omega
    · rw [if_neg hd, cntVote_cons]
      split <;> omega

theorem cntVote_delete_self (t : List VoteRow) (c uid : String) :
    cntVote (deleteVote t c uid) uid c = 0 := by
  induction t with
  | nil => rfl
  | cons r rs ih =>
    rw [deleteVote_cons]
    by_cases hd : r.caption_id = c ∧ r.profile_id = uid
    · rw [if_pos hd]
      exact ih
    · rw [if_neg hd, cntVote_cons]
      have hq : ¬(r.profile_id = uid ∧ r.caption_id = c) := fun hh => hd ⟨hh.2, hh.1⟩
      rw [if_neg hq]
      exact ih

theorem cntVote_upsert_other (t : List VoteRow) (row : VoteRow) (u c : String)
    (h : ¬(u = row.profile_id ∧ c = row.caption_id)) :
    cntVote (upsertVote t row) u c = cntVote t u c := by
  have hrow : ¬(row.profile_id = u ∧ row.caption_id = c) :=
    fun hh => h ⟨hh.1.symm, hh.2.symm⟩
  induction t with
  | nil => simp [upsertVote, cntVote_cons, cntVote, hrow]
  | cons r rs ih =>
    by_cases hm : r.profile_id = row.profile_id ∧ r.caption_id = row.caption_id
    · have hu : upsertVote (r :: rs) row = { r with vote_value := row.vote_value } :: rs := by
        simp [upsertVote, hm.1, hm.2]
      rw [hu, cntVote_cons, cntVote_cons]
    · have hu : upsertVote (r :: rs) row = r :: upsertVote rs row := by
        simp only [upsertVote, if_neg hm]
      rw [hu, cntVote_cons, cntVote_cons, ih]

theorem cntVote_upsert_self (t : List VoteRow) (row : VoteRow)
    (h : cntVote t row.profile_id row.caption_id ≤ 1) :
    cntVote (upsertVote t row) row.profile_id row.caption_id = 1 := by
  induction t with
  | nil => simp [upsertVote, cntVote_cons, cntVote]
  | cons r rs ih =>
    by_cases hm : r.profile_id = row.profile_id ∧ r.caption_id = row.caption_id
    · have hz : cntVote rs row.profile_id row.caption_id = 0 := by
        rw [cntVote_cons, if_pos hm] at h
        omega
      have hu : upsertVote (r :: rs) row = { r with vote_value := row.vote_value } :: rs := by
        simp [upsertVote, hm.1, hm.2]
      rw [hu, cntVote_cons, if_pos hm, hz]
    · have hu : upsertVote (r :: rs) row = r :: upsertVote rs row := by
        simp only [upsertVote, if_neg hm]
      rw [cntVote_cons, if_neg hm] at h
      rw [hu, cntVote_cons, if_neg hm, ih h]

theorem voteTableInv_delete (t : List VoteRow) (c uid : String)
    (h : VoteTableInv t) : VoteTableInv (deleteVote t c uid) := by
  intro u x
  exact le_trans (cntVote_delete_le t c uid u x) (h u x)

theorem voteTableInv_upsert (t : List VoteRow) (row : VoteRow)
    (h : VoteTableInv t) : VoteTableInv (upsertVote t row) := by
  intro u x
  by_cases hm : u = row.profile_id ∧ x = row.caption_id
  · rw [hm.1, hm.2, cntVote_upsert_self t row (h _ _)]
  · rw [cntVote_upsert_other t row u x hm]
    exact h u x

theorem cntImg_append_single (t : List ImgVoteRow) (row : ImgVoteRow) (u i : String) :
    cntImg (t ++ [row]) u i =
      cntImg t u i + (if row.user_id = u ∧ row.image_id = i then 1 else 0) := by
  by_cases h1 : row.user_id = u <;> by_cases h2 : row.image_id = i <;>
    simp [cntImg, List.filter_append, List.filter_cons, h1, h2]

theorem cntImg_eq_zero_of_not_any (t : List ImgVoteRow) (row : ImgVoteRow)
    (h : (t.any fun r => r.user_id == row.user_id && r.image_id == row.image_id) = false) :
    cntImg t row.user_id row.image_id = 0 := by
  have : (t.filter fun r => r.user_id == row.user_id && r.image_id == row.image_id) = [] := by
    rw [List.filter_eq_nil_iff]
    intro a ha
    have := List.any_eq_false.mp h a ha
    simpa using this
  simp [cntImg, this]

theorem imgTableInv_insert (t : List ImgVoteRow) (row : ImgVoteRow) (t2 : List ImgVoteRow)
    (h : ImgTableInv t) (hins : insertImgVote t row = some t2) : ImgTableInv t2 := by
  unfold insertImgVote at hins
  by_cases hany : (t.any fun r => r.user_id == row.user_id && r.image_id == row.image_id) = true
  · rw [if_pos hany] at hins
    exact absurd hins (by simp)
  · have hfalse : (t.any fun r => r.user_id == row.user_id && r.image_id == row.image_id) = false := by
      simpa using hany
    rw [if_neg (by simp [hfalse])] at hins
    have ht2 : t2 = t ++ [row] := by
      simpa using hins.symm
    subst ht2
    intro u i
    rw [cntImg_append_single]
    by_cases hm : row.user_id = u ∧ row.image_id = i
    · have hz : cntImg t u i = 0 := by
        rw [← hm.1, ← hm.2]
        exact cntImg_eq_zero_of_not_any t row hfalse
      rw [if_pos hm, hz]
    · rw [if_neg hm]
      simpa using h u i

theorem handleVote_cdn_step_sync (s : AppState) (t : List VoteRow) (c : String) (v : Int)
    (res : Option String) (uid : String) (hu : s.user = some uid) (hinv : VoteTableInv t)
    (hsync : ∀ x, s.userVotes x = fetchUserVotesMap t uid x) :
    (handleVote_cdn s t c v res).1.user = some uid ∧
    VoteTableInv (handleVote_cdn s t c v res).2.1 ∧
    ∀ x, (handleVote_cdn s t c v res).1.userVotes x =
      fetchUserVotesMap (handleVote_cdn s t c v res).2.1 uid x := by
  by_cases hv : s.userVotes c = some v
  · cases res with
    | some msg =>
      simp only [handleVote_cdn, hu, if_pos hv]
      exact ⟨trivial, hinv, hsync⟩
    | none =>
      simp only [handleVote_cdn, hu, if_pos hv]
      refine ⟨trivial, voteTableInv_delete t c uid hinv, ?_⟩
      intro x
      rw [fetchUserVotesMap_delete]
      by_cases hx : x = c
      · simp [hx]
      · simp only [if_neg hx]
        exact hsync x
  · cases res with
    | some msg =>
      simp only [handleVote_cdn, hu, if_neg hv]
      exact ⟨trivial, hinv, hsync⟩
    | none =>
      simp only [handleVote_cdn, hu, if_neg hv]
      refine ⟨trivial, voteTableInv_upsert t ⟨uid, c, v⟩ hinv, ?_⟩
      intro x
      rw [fetchUserVotesMap_upsert t uid c v x (hinv uid c)]
      by_cases hx : x = c
      · simp [hx]
      · simp only [if_neg hx]
        exact hsync x

/-- C1: for every identity and content item, after any sequence of
handleVote calls of the part_000 App in which each mutation settles before
the next, the local vote mapping equals the mapping a fresh fetchUserVotes
call for that identity would fold from the remote store. Hypotheses: the
identity is signed in, the remote table satisfies the uniqueness
constraint of the schema, and the local mapping initially agrees with a
fresh fetch (the state right after the initial load). -/
theorem castVote_local_matches_refetch (s : AppState) (t : List VoteRow) (uid : String)
    (calls : List (String × Int × Option String))
    (hu : s.user = some uid) (hinv : VoteTableInv t)
    (hsync : ∀ x, s.userVotes x = fetchUserVotesMap t uid x) :
    ∀ x, (runVotes s t calls).1.userVotes x =
      fetchUserVotesMap (runVotes s t calls).2 uid x := by
  induction calls generalizing s t with
  | nil => exact hsync
  | cons k ks ih =>
    obtain ⟨c, v, res⟩ := k
    have hstep := handleVote_cdn_step_sync s t c v res uid hu hinv hsync
    exact ih _ _ hstep.1 hstep.2.1 hstep.2.2

/-- Witness for C1: concrete run of the spec scenario of section 8
(vote up, undo by voting up again, then vote down) from a freshly loaded
empty state against an empty table. -/
theorem castVote_local_matches_refetch_witness :
    (runVotes
        { user := some "u1", captions := [], userVotes := fun _ => none,
          loading := false, error := none }
        [] [("c1", 1, none), ("c1", 1, none), ("c1", -1, none)]).1.userVotes "c1" =
      fetchUserVotesMap
        (runVotes
          { user := some "u1", captions := [], userVotes := fun _ => none,
            loading := false, error := none }
          [] [("c1", 1, none), ("c1", 1, none), ("c1", -1, none)]).2 "u1" "c1" :=
  castVote_local_matches_refetch
    { user := some "u1", captions := [], userVotes := fun _ => none,
      loading := false, error := none }
    [] "u1" [("c1", 1, none), ("c1", 1, none), ("c1", -1, none)]
    rfl (fun _ _ => Nat.zero_le 1) (fun _ => rfl) "c1"

/-- C4: every handleVote invocation preserves the invariant that the
remote vote table holds at most one row per (identity, content item) pair:
the part_000 variant only upserts on the conflict key or deletes, and the
part_001 plain insert is rejected by the uniqueness constraint of the
store when a row for the pair already exists. -/
theorem castVote_preserves_row_cardinality
    (s : AppState) (t : List VoteRow) (c : String) (v : Int) (res : Option String)
    (s2 : V2State) (t2 : List ImgVoteRow) (img : String) (d : VoteDir) (res2 : Option String)
    (h1 : VoteTableInv t) (h2 : ImgTableInv t2) :
    VoteTableInv (handleVote_cdn s t c v res).2.1 ∧
    ImgTableInv (handleVote_v2 s2 t2 img d res2).2.1 := by
  constructor
  · cases hu : s.user with
    | none => simpa only [handleVote_cdn, hu] using h1
    | some uid =>
      by_cases hv : s.userVotes c = some v
      · cases res with
        | some msg => simpa only [handleVote_cdn, hu, if_pos hv] using h1
        | none =>
          simp only [handleVote_cdn, hu, if_pos hv]
          exact voteTableInv_delete t c uid h1
      · cases res with
        | some msg => simpa only [handleVote_cdn, hu, if_neg hv] using h1
        | none =>
          simp only [handleVote_cdn, hu, if_neg hv]
          exact voteTableInv_upsert t ⟨uid, c, v⟩ h1
  · cases hu : s2.user with
    | none => simpa only [handleVote_v2, hu] using h2
    | some uid =>
      cases res2 with
      | some msg => simpa only [handleVote_v2, hu] using h2
      | none =>
        cases hins : insertImgVote t2 ⟨img, uid, d⟩ with
        | none => simpa only [handleVote_v2, hu, hins] using h2
        | some t3 =>
          simp only [handleVote_v2, hu, hins]
          exact imgTableInv_insert t2 ⟨img, uid, d⟩ t3 h2 hins

/-- Witness for C4: a concrete invocation per variant against a
one-row table satisfying the invariant. -/
theorem castVote_preserves_row_cardinality_witness :
    VoteTableInv
      (handleVote_cdn
        { user := some "u1", captions := [], userVotes := fun _ => none,
          loading := false, error := none }
        [⟨"u2", "c1", 1⟩] "c1" 1 none).2.1 ∧
    ImgTableInv
      (handleVote_v2
        { user := some "u1", images := [], userVotes := fun _ => none,
          loading := false, error := none, votingId := none }
        [⟨"i1", "u1", VoteDir.up⟩] "i1" VoteDir.down none).2.1 :=
  castVote_preserves_row_cardinality
    { user := some "u1", captions := [], userVotes := fun _ => none,
      loading := false, error := none }
    [⟨"u2", "c1", 1⟩] "c1" 1 none
    { user := some "u1", images := [], userVotes := fun _ => none,
      loading := false, error := none, votingId := none }
    [⟨"i1", "u1", VoteDir.up⟩] "i1" VoteDir.down none
    (by intro u x; simp [cntVote, List.filter]; split <;> simp)
    (by intro u i; simp [cntImg, List.filter]; split <;> simp)

/-- C5: with a signed-in identity, one handleVote invocation issues
exactly one remote write: in the part_000 App a delete when the clicked
value equals the current local vote and otherwise one upsert keyed on
(profile_id, caption_id); in the LoginButton variant always exactly one
such upsert. In particular flipping an existing vote to the opposite
direction is one upsert, never a delete followed by an insert. The
part_001 variant likewise issues exactly one write, a plain insert. -/
theorem castVote_exactly_one_remote_write
    (s : AppState) (t : List VoteRow) (c : String) (v : Int) (res : Option String)
    (uid : String) (hu : s.user = some uid)
    (sL : LoginState) (tL : List VoteRow) (cL : String) (dL : VoteDir) (resL : Option String)
    (uidL : String) (huL : sL.user = some uidL)
    (s2 : V2State) (t2 : List ImgVoteRow) (i2 : String) (d2 : VoteDir) (res2 : Option String)
    (uid2 : String) (hu2 : s2.user = some uid2) :
    (handleVote_cdn s t c v res).2.2 =
      [if s.userVotes c = some v then RemoteWrite.delete c uid
       else RemoteWrite.upsert uid c v] ∧
    (handleVote_login sL tL cL dL resL).2.2 =
      [RemoteWrite.upsert uidL cL (dirValue dL)] ∧
    (handleVote_v2 s2 t2 i2 d2 res2).2.2 =
      [RemoteWrite.insert uid2 i2 d2] := by
  refine ⟨?_, ?_, ?_⟩
  · by_cases hv : s.userVotes c = some v
    · cases res <;> simp [handleVote_cdn, hu, hv]
    · cases res <;> simp [handleVote_cdn, hu, hv]
  · cases resL <;> simp [handleVote_login, huL]
  · cases res2 with
    | some msg => simp [handleVote_v2, hu2]
    | none =>
      cases hins : insertImgVote t2 ⟨i2, uid2, d2⟩ <;> simp [handleVote_v2, hu2, hins]

/-- Witness for C5: a concrete direction flip (current vote up, click
down) in the part_000 App producing the single upsert write, plus
concrete invocations of the other two variants. -/
theorem castVote_exactly_one_remote_write_witness :
    (handleVote_cdn
        { user := some "u1", captions := [],
          userVotes := fun x => if x = "c1" then some 1 else none,
          loading := false, error := none }
        [⟨"u1", "c1", 1⟩] "c1" (-1) none).2.2 =
      [if (if "c1" = "c1" then some 1 else (none : Option Int)) = some (-1) then
          RemoteWrite.delete "c1" "u1"
        else RemoteWrite.upsert "u1" "c1" (-1)] ∧
    (handleVote_login
        { user := some "u1", displayData := [], userVotes := fun _ => none,
          loading := false, error := none, votingId := none }
        [] "c2" VoteDir.down none).2.2 =
      [RemoteWrite.upsert "u1" "c2" (dirValue VoteDir.down)] ∧
    (handleVote_v2
        { user := some "u1", images := [], userVotes := fun _ => none,
          loading := false, error := none, votingId := none }
        [] "i1" VoteDir.up none).2.2 =
      [RemoteWrite.insert "u1" "i1" VoteDir.up] :=
  castVote_exactly_one_remote_write
    { user := some "u1", captions := [],
      userVotes := fun x => if x = "c1" then some 1 else none,
      loading := false, error := none }
    [⟨"u1", "c1", 1⟩] "c1" (-1) none "u1" rfl
    { user := some "u1", displayData := [], userVotes := fun _ => none,
      loading := false, error := none, votingId := none }
    [] "c2" VoteDir.down none "u1" rfl
    { user := some "u1", images := [], userVotes := fun _ => none,
      loading := false, error := none, votingId := none }
    [] "i1" VoteDir.up none "u1" rfl

/-- C6: voting while the identity is null performs no remote write and
returns every piece of local state and the table unchanged, in all four
variants; and the guard is the sole gate on mutation: with a non-null
identity the cited variants always issue a remote write. -/
theorem castVote_null_identity_noop
    (s : AppState) (t : List VoteRow) (c : String) (v : Int) (res : Option String)
    (s2 : V2State) (t2 : List ImgVoteRow) (i2 : String) (d2 : VoteDir) (res2 : Option String)
    (s3 : LoginState) (t3 : List VoteRow) (c3 : String) (d3 : VoteDir) (res3 : Option String)
    (h : s.user = none) (h2 : s2.user = none) (h3 : s3.user = none)
    (s4 : AppState) (uid4 : String) (h4 : s4.user = some uid4)
    (s5 : LoginState) (uid5 : String) (h5 : s5.user = some uid5) :
    handleVote_cdn s t c v res = (s, t, []) ∧
    handleVote_page s t c v res = (s, t, []) ∧
    handleVote_v2 s2 t2 i2 d2 res2 = (s2, t2, []) ∧
    handleVote_login s3 t3 c3 d3 res3 = (s3, t3, []) ∧
    (handleVote_cdn s4 t c v res).2.2 ≠ [] ∧
    (handleVote_login s5 t3 c3 d3 res3).2.2 ≠ [] := by
  refine ⟨?_, ?_, ?_, ?_, ?_, ?_⟩
  · simp [handleVote_cdn, h]
  · simp [handleVote_page, h]
  · simp [handleVote_v2, h2]
  · simp [handleVote_login, h3]
  · by_cases hv : s4.userVotes c = some v <;> cases res <;>
      simp [handleVote_cdn, h4, hv]
  · cases res3 <;> simp [handleVote_login, h5]

/-- Witness for C6: concrete signed-out states for the no-op conjuncts
and concrete signed-in states for the sole-gate conjuncts. -/
theorem castVote_null_identity_noop_witness :
    handleVote_cdn
        { user := none, captions := [], userVotes := fun _ => none,
          loading := false, error := none }
        [] "c1" 1 none =
      ({ user := none, captions := [], userVotes := fun _ => none,
         loading := false, error := none }, [], []) ∧
    handleVote_page
        { user := none, captions := [], userVotes := fun _ => none,
          loading := false, error := none }
        [] "c1" 1 none =
      ({ user := none, captions := [], userVotes := fun _ => none,
         loading := false, error := none }, [], []) ∧
    handleVote_v2
        { user := none, images := [], userVotes := fun _ => none,
          loading := false, error := none, votingId := none }
        [] "i1" VoteDir.up none =
      ({ user := none, images := [], userVotes := fun _ => none,
         loading := false, error := none, votingId := none }, [], []) ∧
    handleVote_login
        { user := none, displayData := [], userVotes := fun _ => none,
          loading := false, error := none, votingId := none }
        [] "c1" VoteDir.up none =
      ({ user := none, displayData := [], userVotes := fun _ => none,
         loading := false, error := none, votingId := none }, [], []) ∧
    (handleVote_cdn
        { user := some "u1", captions := [], userVotes := fun _ => none,
          loading := false, error := none }
        [] "c1" 1 none).2.2 ≠ [] ∧
    (handleVote_login
        { user := some "u1", displayData := [], userVotes := fun _ => none,
          loading := false, error := none, votingId := none }
        [] "c1" VoteDir.up none).2.2 ≠ [] :=
  castVote_null_identity_noop
    { user := none, captions := [], userVotes := fun _ => none,
      loading := false, error := none }
    [] "c1" 1 none
    { user := none, images := [], userVotes := fun _ => none,
      loading := false, error := none, votingId := none }
    [] "i1" VoteDir.up none
    { user := none, displayData := [], userVotes := fun _ => none,
      loading := false, error := none, votingId := none }
    [] "c1" VoteDir.up none
    rfl rfl rfl
    { user := some "u1", captions := [], userVotes := fun _ => none,
      loading := false, error := none }
    "u1" rfl
    { user := some "u1", displayData := [], userVotes := fun _ => none,
      loading := false, error := none, votingId := none }
    "u1" rfl

/-- C8: on the transition to signed out (a null session), the shared auth
listener of the part_000 App and the page.tsx App clears the content
list, empties the vote mapping, clears the user and ends loading — for
every prior state and irrespective of the outcomes of any fetch in
flight. -/
theorem signOut_clears_identity_state (s : AppState)
    (capRes : Except String (List Caption)) (t : List VoteRow) (voteErr : Option String) :
    (onAuthStateChange_app s none capRes t voteErr).captions = [] ∧
    (∀ x, (onAuthStateChange_app s none capRes t voteErr).userVotes x = none) ∧
    (onAuthStateChange_app s none capRes t voteErr).loading = false ∧
    (onAuthStateChange_app s none capRes t voteErr).user = none :=
  ⟨rfl, fun _ => rfl, rfl, rfl⟩

/-- C10: every handleVote invocation, successful or failing, leaves the
loaded content list unchanged in every variant — and also the user and
the loading flag: the handlers mutate only the vote mapping, the busy
marker and the error message. -/
theorem castVote_frame_content_list
    (s : AppState) (t : List VoteRow) (c : String) (v : Int) (res : Option String)
    (s2 : V2State) (t2 : List ImgVoteRow) (i2 : String) (d2 : VoteDir) (res2 : Option String)
    (s3 : LoginState) (t3 : List VoteRow) (c3 : String) (d3 : VoteDir) (res3 : Option String) :
    ((handleVote_cdn s t c v res).1.captions = s.captions ∧
     (handleVote_cdn s t c v res).1.user = s.user ∧
     (handleVote_cdn s t c v res).1.loading = s.loading) ∧
    ((handleVote_page s t c v res).1.captions = s.captions ∧
     (handleVote_page s t c v res).1.user = s.user ∧
     (handleVote_page s t c v res).1.loading = s.loading) ∧
    ((handleVote_v2 s2 t2 i2 d2 res2).1.images = s2.images ∧
     (handleVote_v2 s2 t2 i2 d2 res2).1.user = s2.user ∧
     (handleVote_v2 s2 t2 i2 d2 res2).1.loading = s2.loading) ∧
    ((handleVote_login s3 t3 c3 d3 res3).1.displayData = s3.displayData ∧
     (handleVote_login s3 t3 c3 d3 res3).1.user = s3.user ∧
     (handleVote_login s3 t3 c3 d3 res3).1.loading = s3.loading) := by
  refine ⟨?_, ?_, ?_, ?_⟩
  · cases hu : s.user with
    | none => simp [handleVote_cdn, hu]
    | some uid =>
      by_cases hv : s.userVotes c = some v <;> cases res <;>
        simp [handleVote_cdn, hu, hv]
  · cases hu : s.user with
    | none => simp [handleVote_page, hu]
    | some uid =>
      by_cases hv : s.userVotes c = some v <;> cases res <;>
        simp [handleVote_page, hu, hv]
  · cases hu : s2.user with
    | none => simp [handleVote_v2, hu]
    | some uid =>
      cases res2 with
      | some msg => simp [handleVote_v2, hu]
      | none =>
        cases hins : insertImgVote t2 ⟨i2, uid, d2⟩ <;> simp [handleVote_v2, hu, hins]
  · cases hu : s3.user with
    | none => simp [handleVote_login, hu]
    | some uid =>
      cases res3 <;> simp [handleVote_login, hu]

theorem mem_upsertVote_self (t : List VoteRow) (row : VoteRow) :
    row ∈ upsertVote t row := by
  induction t with
  | nil => simp [upsertVote]
  | cons r rs ih =>
    by_cases hm : r.profile_id = row.profile_id ∧ r.caption_id = row.caption_id
    · have heq : ({ r with vote_value := row.vote_value } : VoteRow) = row := by
        cases r
        cases row
        simp_all
      simp only [upsertVote, if_pos hm, heq]
      exact List.mem_cons_self row rs
    · simp only [upsertVote, if_neg hm]
      exact List.mem_cons_of_mem r ih

/-- C2 counterexample: in the LoginButton variant, clicking the currently
active direction is not an undo: the remote row for the
(identity, content item) pair remains in the table with the same value
and the local key stays set, so the claimed deletion and key removal
fail on this variant. -/
theorem undo_click_counterexample :
    (handleVote_login
        { user := some "u1", displayData := [],
          userVotes := fun x => if x = "c1" then some 1 else none,
          loading := false, error := none, votingId := none }
        [⟨"u1", "c1", 1⟩] "c1" VoteDir.up none).2.1 = [⟨"u1", "c1", 1⟩] ∧
    (handleVote_login
        { user := some "u1", displayData := [],
          userVotes := fun x => if x = "c1" then some 1 else none,
          loading := false, error := none, votingId := none }
        [⟨"u1", "c1", 1⟩] "c1" VoteDir.up none).1.userVotes "c1" = some 1 := by
  constructor
  · decide
  · decide

/-- C2 amended: in the part_000 App, clicking the currently active
direction deletes the remote rows of the (identity, content item) pair
and removes the key from the local mapping; the LoginButton variant
instead re-upserts the same direction, leaving a row for the pair present
with that value and the local key still set. -/
theorem undo_click_amended
    (s : AppState) (t : List VoteRow) (c : String) (v : Int) (uid : String)
    (hu : s.user = some uid) (hv : s.userVotes c = some v)
    (sL : LoginState) (tL : List VoteRow) (cL : String) (dL : VoteDir) (uidL : String)
    (huL : sL.user = some uidL) (_hvL : sL.userVotes cL = some (dirValue dL)) :
    (cntVote (handleVote_cdn s t c v none).2.1 uid c = 0 ∧
     (handleVote_cdn s t c v none).1.userVotes c = none) ∧
    ((⟨uidL, cL, dirValue dL⟩ : VoteRow) ∈ (handleVote_login sL tL cL dL none).2.1 ∧
     (handleVote_login sL tL cL dL none).1.userVotes cL = some (dirValue dL)) := by
  constructor
  · simp only [handleVote_cdn, hu, if_pos hv]
    exact ⟨cntVote_delete_self t c uid, by simp⟩
  · simp only [handleVote_login, huL]
    exact ⟨mem_upsertVote_self tL ⟨uidL, cL, dirValue dL⟩, by simp⟩

/-- Witness for the amended C2: a concrete undo in the part_000 App and a
concrete same-direction click in the LoginButton variant. -/
theorem undo_click_amended_witness :
    (cntVote
        (handleVote_cdn
          { user := some "u1", captions := [],
            userVotes := fun x => if x = "c1" then some 1 else none,
            loading := false, error := none }
          [⟨"u1", "c1", 1⟩] "c1" 1 none).2.1 "u1" "c1" = 0 ∧
     (handleVote_cdn
        { user := some "u1", captions := [],
          userVotes := fun x => if x = "c1" then some 1 else none,
          loading := false, error := none }
        [⟨"u1", "c1", 1⟩] "c1" 1 none).1.userVotes "c1" = none) ∧
    ((⟨"u1", "c1", dirValue VoteDir.up⟩ : VoteRow) ∈
      (handleVote_login
        { user := some "u1", displayData := [],
          userVotes := fun x => if x = "c1" then some 1 else none,
          loading := false, error := none, votingId := none }
        [⟨"u1", "c1", 1⟩] "c1" VoteDir.up none).2.1 ∧
     (handleVote_login
        { user := some "u1", displayData := [],
          userVotes := fun x => if x = "c1" then some 1 else none,
          loading := false, error := none, votingId := none }
        [⟨"u1", "c1", 1⟩] "c1" VoteDir.up none).1.userVotes "c1" =
       some (dirValue VoteDir.up)) :=
  undo_click_amended
    { user := some "u1", captions := [],
      userVotes := fun x => if x = "c1" then some 1 else none,
      loading := false, error := none }
    [⟨"u1", "c1", 1⟩] "c1" 1 "u1" rfl (by decide)
    { user := some "u1", displayData := [],
      userVotes := fun x => if x = "c1" then some 1 else none,
      loading := false, error := none, votingId := none }
    [⟨"u1", "c1", 1⟩] "c1" VoteDir.up "u1" rfl (by decide)

/-- C3 counterexample: with a code present and a successful exchange the
callback handler still redirects to the request origin (the public
landing route), not to a protected route, refuting the claimed
success redirect target. -/
theorem callback_redirect_counterexample :
    (callbackGET "https://example.com" (some "authcode") true).redirectTo =
        "https://example.com" ∧
    (callbackGET "https://example.com" (some "authcode") true).redirectTo ≠
        "https://example.com/protected" := by
  constructor
  · rfl
  · decide

/-- C3 amended: the callback handler exchanges the code exactly when one
is present (discarding the outcome of the exchange) and always redirects
to the request origin — the public landing route — regardless of code
presence or exchange success. -/
theorem callback_always_redirects_to_origin (origin : String) (code : Option String)
    (ok : Bool) :
    (callbackGET origin code ok).redirectTo = origin ∧
    (callbackGET origin code ok).exchanged = code :=
  ⟨rfl, rfl⟩

/-- C7 counterexample: in the page.tsx App a failing vote deletion is only
logged to the console: starting with no error message, the error message
is still absent afterwards, refuting that every failing vote mutation
surfaces a user-visible message. -/
theorem vote_failure_surfaced_counterexample :
    (handleVote_page
        { user := some "u1", captions := [],
          userVotes := fun x => if x = "c1" then some 1 else none,
          loading := false, error := none }
        [⟨"u1", "c1", 1⟩] "c1" 1 (some "boom")).1.error = none := by
  decide

/-- C7 amended: on a failing remote write with a signed-in identity, the
LoginButton variant surfaces the error message, clears the busy marker
and leaves the vote mapping and the remote table unchanged; the page.tsx
App variant likewise leaves the mapping and the table unchanged but only
logs the failure, leaving the error message as it was. -/
theorem vote_failure_amended
    (sL : LoginState) (tL : List VoteRow) (cL : String) (dL : VoteDir) (msgL : String)
    (uidL : String) (huL : sL.user = some uidL)
    (sP : AppState) (tP : List VoteRow) (cP : String) (vP : Int) (msgP : String)
    (uidP : String) (huP : sP.user = some uidP) :
    ((handleVote_login sL tL cL dL (some msgL)).1.error = some msgL ∧
     (handleVote_login sL tL cL dL (some msgL)).1.votingId = none ∧
     (∀ x, (handleVote_login sL tL cL dL (some msgL)).1.userVotes x = sL.userVotes x) ∧
     (handleVote_login sL tL cL dL (some msgL)).2.1 = tL) ∧
    ((handleVote_page sP tP cP vP (some msgP)).1.error = sP.error ∧
     (∀ x, (handleVote_page sP tP cP vP (some msgP)).1.userVotes x = sP.userVotes x) ∧
     (handleVote_page sP tP cP vP (some msgP)).2.1 = tP) := by
  constructor
  · simp [handleVote_login, huL]
  · by_cases hv : sP.userVotes cP = some vP <;> simp [handleVote_page, huP, hv]

/-- Witness for the amended C7: a concrete failing upsert in the
LoginButton variant and a concrete failing delete in the page.tsx App. -/
theorem vote_failure_amended_witness :
    (((handleVote_login
        { user := some "u1", displayData := [], userVotes := fun _ => none,
          loading := false, error := none, votingId := none }
        [] "c1" VoteDir.up (some "boom")).1.error = some "boom" ∧
     (handleVote_login
        { user := some "u1", displayData := [], userVotes := fun _ => none,
          loading := false, error := none, votingId := none }
        [] "c1" VoteDir.up (some "boom")).1.votingId = none ∧
     (∀ x, (handleVote_login
        { user := some "u1", displayData := [], userVotes := fun _ => none,
          loading := false, error := none, votingId := none }
        [] "c1" VoteDir.up (some "boom")).1.userVotes x = none) ∧
     (handleVote_login
        { user := some "u1", displayData := [], userVotes := fun _ => none,
          loading := false, error := none, votingId := none }
        [] "c1" VoteDir.up (some "boom")).2.1 = []) ∧
    ((handleVote_page
        { user := some "u1", captions := [],
          userVotes := fun x => if x = "c1" then some 1 else none,
          loading := false, error := none }
        [⟨"u1", "c1", 1⟩] "c1" 1 (some "oops")).1.error = none ∧
     (∀ x, (handleVote_page
        { user := some "u1", captions := [],
          userVotes := fun x => if x = "c1" then some 1 else none,
          loading := false, error := none }
        [⟨"u1", "c1", 1⟩] "c1" 1 (some "oops")).1.userVotes x =
          (if x = "c1" then some 1 else none)) ∧
     (handleVote_page
        { user := some "u1", captions := [],
          userVotes := fun x => if x = "c1" then some 1 else none,
          loading := false, error := none }
        [⟨"u1", "c1", 1⟩] "c1" 1 (some "oops")).2.1 = [⟨"u1", "c1", 1⟩])) :=
  vote_failure_amended
    { user := some "u1", displayData := [], userVotes := fun _ => none,
      loading := false, error := none, votingId := none }
    [] "c1" VoteDir.up "boom" "u1" rfl
    { user := some "u1", captions := [],
      userVotes := fun x => if x = "c1" then some 1 else none,
      loading := false, error := none }
    [⟨"u1", "c1", 1⟩] "c1" 1 "oops" "u1" rfl

/-- C9 counterexample: a failing vote fetch in part_000 leaves a
previously non-empty vote mapping non-empty rather than empty, and the
LoginButton fetchData surfaces a failing vote fetch as the user-visible
error message, refuting that the mapping is left empty and that vote
fetch errors are never surfaced. -/
theorem loadUserVotes_error_counterexample :
    (fetchUserVotes_app
        { user := some "u1", captions := [],
          userVotes := fun x => if x = "c1" then some 1 else none,
          loading := false, error := none }
        "u1" [] (some "boom")).userVotes "c1" = some 1 ∧
    (fetchData_login
        { user := some "u1", displayData := [], userVotes := fun _ => none,
          loading := true, error := none, votingId := none }
        "u1" (Except.ok []) [] (some "boom")).error = some "boom" := by
  constructor
  · decide
  · decide

/-- C9 amended: fetchUserVotes (part_000) folds, on success, the fetched
rows of the identity into the vote mapping; on a fetch error it only
logs, leaving the whole state unchanged — the mapping is therefore left
as it was (empty exactly when it was already empty) and the error message
is never set. The LoginButton fetchData, by contrast, surfaces a failing
vote fetch via the error message, also leaving its mapping unchanged. -/
theorem loadUserVotes_amended (s : AppState) (uid : String) (t : List VoteRow) (msg : String)
    (sL : LoginState) (uidL : String) (caps : List CaptionItem) (tL : List VoteRow)
    (msgL : String) :
    (fetchUserVotes_app s uid t (some msg) = s) ∧
    (∀ x, (fetchUserVotes_app s uid t none).userVotes x = fetchUserVotesMap t uid x) ∧
    ((fetchUserVotes_app s uid t none).error = s.error) ∧
    ((fetchData_login sL uidL (Except.ok caps) tL (some msgL)).error = some msgL ∧
     ∀ x, (fetchData_login sL uidL (Except.ok caps) tL (some msgL)).userVotes x =
       sL.userVotes x) :=
  ⟨rfl, fun _ => rfl, rfl, rfl, fun _ => rfl⟩

end Gallery
